import Mathlib

/-!
Verification of `lib/ansible/modules/database/postgresql/postgresql_ext.py`.

The module reconciles a single PostgreSQL extension inside one database:
it reads the `pg_extension` catalog through a live cursor and issues at most
one DDL statement (CREATE / ALTER ... UPDATE TO / DROP) to converge the
installation to the desired state.

The embedding below translates the module's functions (`ext_exists`,
`ext_delete`, `ext_create`, `prepare_ext_query`, `QuotedIdentifier.getquoted`
and the reconciliation core of `main`) into Lean, with the cursor made an
explicit state value.  The external collaborator (psycopg2 + the PostgreSQL
server) is modelled as part of the cursor: the catalog is a list of rows, a
statement's server-side meaning is an `Act`, and every executed statement is
recorded in a trace.  Python exceptions are modelled with `Except String`.
-/

namespace PostgresqlExt

/-- Python truthiness of the optional `ver` argument as the source tests it
with `if ver:`: `None` and the empty string are falsy, every other string is
truthy. -/
def pyTruthy : Option String → Bool
  | none => false
  | some s => !(s == "")

/-- One row of the `pg_extension` catalog: extension name and installed
version (`extname`, `extversion`). -/
structure Row where
  extname : String
  extversion : String
  deriving DecidableEq

/-- The server-side meaning of a statement issued by the module.  The module
only ever sends the two SELECT shapes of `ext_exists` and the three DDL
statements of `ext_delete` / `ext_create`. -/
inductive Act where
  | selectByName (ext : String)
  | selectByNameVer (ext ver : String)
  | createExt (ext : String)
  | createExtVer (ext ver : String)
  | alterExtVer (ext ver : String)
  | dropExt (ext : String)
  deriving DecidableEq

/-- Whether a statement is a write (DDL) rather than a pure read. -/
def Act.isWrite : Act → Bool
  | .selectByName _ => false
  | .selectByNameVer _ _ => false
  | _ => true

/-- A value passed in the parameter dictionary of `cursor.execute`: a plain
string, Python `None`, or a `QuotedIdentifier` wrapper (compatibility-shim
path only). -/
inductive Param where
  | pstr (s : String)
  | pnone
  | pquoted (s : String)
  deriving DecidableEq

/-- How an `Option String` argument travels into a parameter dictionary. -/
def Param.ofOpt : Option String → Param
  | none => .pnone
  | some s => .pstr s

/-- One `cursor.execute(text, params)` call: the SQL text as passed by the
module, the bind parameters as passed by the module, and the statement's
server-side meaning. -/
structure Stmt where
  text : String
  params : List (String × Param)
  act : Act
  deriving DecidableEq

/-- The execution context: the driver-capability flag (`HAS_QUOTE_IDENT`),
the server model (catalog plus the version the server picks for a CREATE
without VERSION clause), the last `rowcount`, and the trace of executed
statements (oldest first). -/
structure Cursor where
  hasQuoteIdent : Bool
  defaultVersion : String → String
  db : List Row
  rowcount : Nat
  trace : List Stmt

/-- Number of catalog rows with the given extension name. -/
def countByName (db : List Row) (e : String) : Nat :=
  (db.filter (fun r => r.extname == e)).length

/-- Number of catalog rows with the given extension name and version. -/
def countByNameVer (db : List Row) (e v : String) : Nat :=
  (db.filter (fun r => r.extname == e && r.extversion == v)).length

/-- The row count a statement reports (SELECTs count matching rows). -/
def countRows (db : List Row) : Act → Nat
  | .selectByName e => countByName db e
  | .selectByNameVer e v => countByNameVer db e v
  | _ => 0

/-- The server's effect of a statement on the catalog.  A CREATE without
VERSION installs the server-chosen default version; ALTER ... UPDATE TO sets
the version of the named extension; DROP removes its row. -/
def applyAct (defVer : String → String) (db : List Row) : Act → List Row
  | .selectByName _ => db
  | .selectByNameVer _ _ => db
  | .createExt e => db ++ [⟨e, defVer e⟩]
  | .createExtVer e v => db ++ [⟨e, v⟩]
  | .alterExtVer e v =>
      db.map (fun r => if r.extname == e then { r with extversion := v } else r)
  | .dropExt e => db.filter (fun r => !(r.extname == e))

/-- First character of `[^\W\d]`: a word character that is not a digit,
i.e. a letter or an underscore (word characters modelled over ASCII). -/
def pyIsIdentFirst (c : Char) : Bool := c.isAlpha || c == '_'

/-- A character matched by `[\w_\$]`: word character, underscore or dollar. -/
def pyIsWordDollar (c : Char) : Bool := c.isAlphanum || c == '_' || c == '$'

/-- `[\w_\$]+$` matched against the whole remainder of the identifier, with
Python's semantics of `$`: it matches at the end of the string or just
before a newline that ends the string. -/
def tailMatch : List Char → Bool
  | [] => false
  | c :: rest =>
      pyIsWordDollar c && (rest.isEmpty || tailMatch rest || rest == ['\n'])

/-- `re.match(QuotedIdentifier.EXTENSION_PATTERN, s)` for the pattern
`[^\W\d][\w_\$]+$` (anchored at the start by `re.match`). -/
def pymatch (s : String) : Bool :=
  match s.data with
  | [] => false
  | c :: rest => pyIsIdentFirst c && tailMatch rest

/-- The text of the exception `'%r is not a valid identifier'`. -/
def errMsg (n : String) : String :=
  "\x27" ++ n ++ "\x27 is not a valid identifier"

namespace QuotedIdentifier

/-- `QuotedIdentifier.getquoted`: return the identifier verbatim when the
pattern matches, raise otherwise. -/
def getquoted (identifier : String) : Except String String :=
  if pymatch identifier then .ok identifier else .error (errMsg identifier)

end QuotedIdentifier

/-- psycopg2 parameter adaptation: a `QuotedIdentifier` value is adapted by
calling its `getquoted` (the registered adapter returns the validated text
verbatim); plain values and `None` always adapt. -/
def adaptParam : Param → Except String Param
  | .pquoted n =>
      match QuotedIdentifier.getquoted n with
      | .ok _ => .ok (.pquoted n)
      | .error e => .error e
  | p => .ok p

/-- The first adaptation failure among the parameters, if any. -/
def firstAdaptError : List (String × Param) → Option String
  | [] => none
  | (_, p) :: rest =>
      match adaptParam p with
      | .error e => some e
      | .ok _ => firstAdaptError rest

/-- `cursor.execute(text, params)`: the driver first adapts the parameters
(`getquoted` may raise here, before anything is sent to the server); only
when adaptation succeeds is the statement sent, recorded in the trace, and
its effect applied to the catalog. -/
def Cursor.execute (c : Cursor) (s : Stmt) : Except String Unit × Cursor :=
  match firstAdaptError s.params with
  | some e => (.error e, c)
  | none =>
      (.ok (),
       { c with
          db := applyAct c.defaultVersion c.db s.act,
          rowcount := countRows c.db s.act,
          trace := c.trace ++ [s] })

/-- psycopg2's `quote_ident` (libpq `PQescapeIdentifier`): wrap the name in
double quotes, doubling every embedded double quote. -/
def quote_ident (name : String) : String :=
  "\"" ++ name.replace "\"" "\"\"" ++ "\""

/-- Python `query.format(ext=value)` for the templates used by the module
(each contains the single placeholder `{ext}`). -/
def pyFormatExt (query value : String) : String :=
  String.intercalate value (query.splitOn "\x7bext\x7d")

/-- `prepare_ext_query`: on the native path the quoted identifier is
formatted into the text; on the compatibility-shim path the text keeps a
named placeholder and the wrapped identifier is added to the parameters. -/
def prepare_ext_query (c : Cursor) (query : String)
    (params : List (String × Param)) (name : String) :
    String × List (String × Param) :=
  if c.hasQuoteIdent then
    (pyFormatExt query (quote_ident name), params)
  else
    (pyFormatExt query "%(ext)s", params ++ [("ext", .pquoted name)])

/-- `ext_exists(cursor, ext, ver=None)`: run the parameterized SELECT and
report whether exactly one row matched. -/
def ext_exists (c : Cursor) (ext : String) (ver : Option String) :
    Except String Bool × Cursor :=
  let query :=
    if pyTruthy ver then
      "SELECT * FROM pg_extension WHERE extname=%(ext)s and extversion=%(ver)s"
    else
      "SELECT * FROM pg_extension WHERE extname=%(ext)s"
  let act :=
    if pyTruthy ver then Act.selectByNameVer ext (ver.getD "")
    else Act.selectByName ext
  match c.execute ⟨query, [("ext", .pstr ext), ("ver", Param.ofOpt ver)], act⟩ with
  | (.error e, c) => (.error e, c)
  | (.ok _, c) => (.ok (c.rowcount == 1), c)

/-- `ext_delete(cursor, ext)`: drop the extension when it is installed. -/
def ext_delete (c : Cursor) (ext : String) : Except String Bool × Cursor :=
  match ext_exists c ext none with
  | (.error e, c) => (.error e, c)
  | (.ok ex, c) =>
    if ex then
      let query := "DROP EXTENSION \x7bext\x7d"
      let params : List (String × Param) := []
      let qp := prepare_ext_query c query params ext
      match c.execute ⟨qp.1, qp.2, .dropExt ext⟩ with
      | (.error e, c) => (.error e, c)
      | (.ok _, c) => (.ok true, c)
    else
      (.ok false, c)

/-- `ext_create(cursor, ext, ver=None)`: create the extension when missing
(with VERSION clause when a version is requested), upgrade it when installed
at a different version than requested, otherwise do nothing. -/
def ext_create (c : Cursor) (ext : String) (ver : Option String) :
    Except String Bool × Cursor :=
  match ext_exists c ext none with
  | (.error e, c) => (.error e, c)
  | (.ok ex, c) =>
    if !ex then
      let query :=
        if pyTruthy ver then "CREATE EXTENSION \x7bext\x7d VERSION %(ver)s"
        else "CREATE EXTENSION \x7bext\x7d"
      let params : List (String × Param) := [("ver", Param.ofOpt ver)]
      let qp := prepare_ext_query c query params ext
      let act :=
        if pyTruthy ver then Act.createExtVer ext (ver.getD "")
        else Act.createExt ext
      match c.execute ⟨qp.1, qp.2, act⟩ with
      | (.error e, c) => (.error e, c)
      | (.ok _, c) => (.ok true, c)
    else
      if pyTruthy ver then
        match ext_exists c ext ver with
        | (.error e, c) => (.error e, c)
        | (.ok exv, c) =>
          if !exv then
            let query := "ALTER EXTENSION \x7bext\x7d UPDATE TO %(ver)s"
            let params : List (String × Param) := [("ver", Param.ofOpt ver)]
            let qp := prepare_ext_query c query params ext
            match c.execute ⟨qp.1, qp.2, .alterExtVer ext (ver.getD "")⟩ with
            | (.error e, c) => (.error e, c)
            | (.ok _, c) => (.ok true, c)
          else
            (.ok false, c)
      else
        (.ok false, c)

/-- The reconciliation core of `main` (source lines 230-241): in check mode
only the existence reads run and `changed` is predicted from them; otherwise
`ext_delete` / `ext_create` run.  `version` is the module parameter, a plain
string with default `""`; any raised exception is reported as a failure. -/
def main (c : Cursor) (check_mode : Bool) (state ext version : String) :
    Except String Bool × Cursor :=
  if check_mode then
    if state == "present" then
      match ext_exists c ext (some version) with
      | (.error e, c) => (.error e, c)
      | (.ok ex, c) => (.ok (!ex), c)
    else if state == "absent" then
      match ext_exists c ext none with
      | (.error e, c) => (.error e, c)
      | (.ok ex, c) => (.ok ex, c)
    else (.ok false, c)
  else
    if state == "absent" then ext_delete c ext
    else if state == "present" then ext_create c ext (some version)
    else (.ok false, c)

/-- Catalog invariant stated by the data model: at most one installation
record per extension name. -/
def wfDb : List Row → Bool
  | [] => true
  | r :: t => !(t.any (fun x => x.extname == r.extname)) && wfDb t

/-- The installed version of an extension, when a row for it exists. -/
def installedVersion (db : List Row) (e : String) : Option String :=
  match db.find? (fun r => r.extname == e) with
  | some r => some r.extversion
  | none => none

/-- The identifier pattern as the specification words it: a letter or
underscore, followed by one or more word characters, underscores or dollar
signs.  Stated over the character list of the name. -/
def specPatternL : List Char → Bool
  | [] => false
  | c :: rest => pyIsIdentFirst c && !rest.isEmpty && rest.all pyIsWordDollar

/-- `specPatternL` over a string. -/
def specPattern (s : String) : Bool := specPatternL s.data

/-- The amended pattern: the specification's pattern, or the same followed by
one trailing newline (Python's `$` also matches just before a final
newline). -/
def amendedPatternL (l : List Char) : Bool :=
  specPatternL l || (l.getLast? == some '\n' && specPatternL l.dropLast)

/-- `amendedPatternL` over a string. -/
def amendedPattern (s : String) : Bool := amendedPatternL s.data

/-- A one-row catalog used by the concrete witnesses below. -/
def dbOne : List Row := [⟨"postgis", "1.0"⟩]

/-- A native-quoting cursor over `dbOne`. -/
def cursorNative : Cursor := ⟨true, fun _ => "3.0", dbOne, 0, []⟩

/-- A compatibility-shim cursor whose catalog row carries a name the shim
pattern rejects. -/
def cursorShimBad : Cursor := ⟨false, fun _ => "3.0", [⟨"bad;name", "1.0"⟩], 0, []⟩

/-! ### Helper lemmas about the embedding -/

theorem adaptParam_ofOpt (v : Option String) :
    adaptParam (Param.ofOpt v) = Except.ok (Param.ofOpt v) := by
  cases v <;> rfl

/-- The SELECT of `ext_exists` with a falsy version (`None` or `""`): the
name-only query runs, nothing fails, the catalog is unchanged. -/
theorem ext_exists_falsy (c : Cursor) (ext : String) (ver : Option String)
    (h : pyTruthy ver = false) :
    ext_exists c ext ver =
      (Except.ok (countByName c.db ext == 1),
       { c with
          rowcount := countByName c.db ext,
          trace := c.trace ++
            [⟨"SELECT * FROM pg_extension WHERE extname=%(ext)s",
              [("ext", .pstr ext), ("ver", Param.ofOpt ver)],
              Act.selectByName ext⟩] }) := by
  cases ver with
  | none => rfl
  | some s =>
    simp only [pyTruthy, Bool.not_eq_false'] at h
    simp [ext_exists, pyTruthy, h, Cursor.execute, firstAdaptError, adaptParam,
      applyAct, countRows, Param.ofOpt]

/-- The SELECT of `ext_exists` with a truthy version: the name-and-version
query runs, nothing fails, the catalog is unchanged. -/
theorem ext_exists_truthy (c : Cursor) (ext v : String) (h : (v == "") = false) :
    ext_exists c ext (some v) =
      (Except.ok (countByNameVer c.db ext v == 1),
       { c with
          rowcount := countByNameVer c.db ext v,
          trace := c.trace ++
            [⟨"SELECT * FROM pg_extension WHERE extname=%(ext)s and extversion=%(ver)s",
              [("ext", .pstr ext), ("ver", .pstr v)],
              Act.selectByNameVer ext v⟩] }) := by
  simp [ext_exists, pyTruthy, h, Cursor.execute, firstAdaptError, adaptParam,
    applyAct, countRows, Param.ofOpt]

theorem countByName_cons_pos {r : Row} {t : List Row} {e : String}
    (h : (r.extname == e) = true) :
    countByName (r :: t) e = countByName t e + 1 := by
  simp [countByName, List.filter_cons, h]

theorem countByName_cons_neg {r : Row} {t : List Row} {e : String}
    (h : (r.extname == e) = false) :
    countByName (r :: t) e = countByName t e := by
  simp [countByName, List.filter_cons, h]

theorem countByName_eq_zero (db : List Row) (e : String)
    (h : ∀ x ∈ db, x.extname ≠ e) : countByName db e = 0 := by
  induction db with
  | nil => rfl
  | cons r t ih =>
    have hr : (r.extname == e) = false := by
      simpa using h r (List.mem_cons_self r t)
    rw [countByName_cons_neg hr]
    exact ih (fun x hx => h x (List.mem_cons_of_mem r hx))

theorem countByNameVer_cons_pos {r : Row} {t : List Row} {e v : String}
    (h : (r.extname == e && r.extversion == v) = true) :
    countByNameVer (r :: t) e v = countByNameVer t e v + 1 := by
  simp [countByNameVer, List.filter_cons, h]

theorem countByNameVer_cons_neg {r : Row} {t : List Row} {e v : String}
    (h : (r.extname == e && r.extversion == v) = false) :
    countByNameVer (r :: t) e v = countByNameVer t e v := by
  simp [countByNameVer, List.filter_cons, h]

theorem countByNameVer_le (db : List Row) (e v : String) :
    countByNameVer db e v ≤ countByName db e := by
  induction db with
  | nil => exact Nat.le_refl 0
  | cons r t ih =>
    by_cases hn : (r.extname == e) = true
    · by_cases hv : (r.extversion == v) = true
      · rw [countByNameVer_cons_pos (by simp [hn, hv]), countByName_cons_pos hn]
        exact Nat.succ_le_succ ih
      · rw [countByNameVer_cons_neg (by simp [hv]), countByName_cons_pos hn]
        exact Nat.le_succ_of_le ih
    · rw [countByNameVer_cons_neg (by simp [Bool.eq_false_iff.mpr, hn]),
        countByName_cons_neg (Bool.eq_false_iff.mpr hn)]
      exact ih

/-- Under the catalog invariant the name-only row count is determined by
`installedVersion`. -/
theorem countByName_wf (db : List Row) (e : String) (hwf : wfDb db = true) :
    countByName db e =
      (match installedVersion db e with
       | none => 0
       | some _ => 1) := by
  induction db with
  | nil => rfl
  | cons r t ih =>
    simp only [wfDb, Bool.and_eq_true, Bool.not_eq_true'] at hwf
    have hall : ∀ x ∈ t, x.extname ≠ r.extname := by
      intro x hx
      have := (List.any_eq_false.mp hwf.1) x hx
      simpa using this
    by_cases hn : (r.extname == e) = true
    · have he : r.extname = e := by simpa using hn
      have hz : countByName t e = 0 :=
        countByName_eq_zero t e (fun x hx => he ▸ hall x hx)
      rw [countByName_cons_pos hn, hz]
      simp [installedVersion, List.find?_cons_of_pos, hn]
    · have hnf : (r.extname == e) = false := Bool.eq_false_iff.mpr hn
      rw [countByName_cons_neg hnf]
      have := ih hwf.2
      rw [this]
      simp [installedVersion, List.find?_cons_of_neg, hnf]

/-- Under the catalog invariant the name-and-version row count is `1` exactly
when the extension is installed at that version. -/
theorem countByNameVer_wf (db : List Row) (e v : String) (hwf : wfDb db = true) :
    countByNameVer db e v =
      (if installedVersion db e = some v then 1 else 0) := by
  induction db with
  | nil => rfl
  | cons r t ih =>
    simp only [wfDb, Bool.and_eq_true, Bool.not_eq_true'] at hwf
    have hall : ∀ x ∈ t, x.extname ≠ r.extname := by
      intro x hx
      have := (List.any_eq_false.mp hwf.1) x hx
      simpa using this
    by_cases hn : (r.extname == e) = true
    · have he : r.extname = e := by simpa using hn
      have hz : countByNameVer t e v = 0 := by
        apply Nat.le_zero.mp
        calc countByNameVer t e v ≤ countByName t e := countByNameVer_le t e v
          _ = 0 := countByName_eq_zero t e (fun x hx => he ▸ hall x hx)
      by_cases hv : (r.extversion == v) = true
      · have hev : r.extversion = v := by simpa using hv
        rw [countByNameVer_cons_pos (by simp [hn, hv]), hz]
        simp [installedVersion, List.find?_cons_of_pos, hn, hev]
      · have hev : ¬(r.extversion = v) := by simpa using hv
        rw [countByNameVer_cons_neg (by simp [Bool.eq_false_iff.mpr hv]), hz]
        simp [installedVersion, List.find?_cons_of_pos, hn, hev]
    · have hnf : (r.extname == e) = false := Bool.eq_false_iff.mpr hn
      rw [countByNameVer_cons_neg (by simp [hnf])]
      rw [ih hwf.2]
      simp [installedVersion, List.find?_cons_of_neg, hnf]

theorem firstAdaptError_nil : firstAdaptError [] = none := rfl

theorem firstAdaptError_ver (v : Option String) :
    firstAdaptError [("ver", Param.ofOpt v)] = none := by
  cases v <;> rfl

theorem firstAdaptError_ext_ok (n : String) (h : pymatch n = true) :
    firstAdaptError [("ext", Param.pquoted n)] = none := by
  simp [firstAdaptError, adaptParam, QuotedIdentifier.getquoted, h]

theorem firstAdaptError_ext_err (n : String) (h : pymatch n = false) :
    firstAdaptError [("ext", Param.pquoted n)] = some (errMsg n) := by
  simp [firstAdaptError, adaptParam, QuotedIdentifier.getquoted, h]

theorem firstAdaptError_ver_ext_ok (v : Option String) (n : String)
    (h : pymatch n = true) :
    firstAdaptError [("ver", Param.ofOpt v), ("ext", Param.pquoted n)] = none := by
  cases v <;> simp [firstAdaptError, adaptParam, QuotedIdentifier.getquoted, h, Param.ofOpt]

theorem firstAdaptError_ver_ext_err (v : Option String) (n : String)
    (h : pymatch n = false) :
    firstAdaptError [("ver", Param.ofOpt v), ("ext", Param.pquoted n)] =
      some (errMsg n) := by
  cases v <;> simp [firstAdaptError, adaptParam, QuotedIdentifier.getquoted, h, Param.ofOpt]

theorem execute_of_adapt_ok (c : Cursor) (t : String)
    (ps : List (String × Param)) (a : Act) (h : firstAdaptError ps = none) :
    c.execute ⟨t, ps, a⟩ =
      (.ok (),
       { c with
          db := applyAct c.defaultVersion c.db a,
          rowcount := countRows c.db a,
          trace := c.trace ++ [⟨t, ps, a⟩] }) := by
  simp [Cursor.execute, h]

theorem execute_of_adapt_err (c : Cursor) (t : String)
    (ps : List (String × Param)) (a : Act) (e : String)
    (h : firstAdaptError ps = some e) :
    c.execute ⟨t, ps, a⟩ = (.error e, c) := by
  simp [Cursor.execute, h]

/-- Full characterization of a successful `ext_delete` run from a fresh
cursor: the result, the catalog after the run, the DDL issued and the number
of reads, on either quoting path provided the identifier is accepted. -/
theorem ext_delete_run (c : Cursor) (ext : String) (htr : c.trace = [])
    (hok : c.hasQuoteIdent = true ∨ pymatch ext = true) :
    (ext_delete c ext).1 = Except.ok (countByName c.db ext == 1) ∧
    (ext_delete c ext).2.db =
      (if countByName c.db ext == 1 then
        c.db.filter (fun r => !(r.extname == ext)) else c.db) ∧
    ((ext_delete c ext).2.trace.filter (fun s => s.act.isWrite)).map Stmt.act =
      (if countByName c.db ext == 1 then [Act.dropExt ext] else []) ∧
    ((ext_delete c ext).2.trace.filter (fun s => !s.act.isWrite)).length = 1 ∧
    (ext_delete c ext).2.hasQuoteIdent = c.hasQuoteIdent := by
  by_cases hcnt : (countByName c.db ext == 1) = true
  · rcases hok with hqi | hpm
    · simp [ext_delete, ext_exists_falsy c ext none rfl, hcnt, prepare_ext_query, hqi,
        execute_of_adapt_ok _ _ _ _ firstAdaptError_nil, applyAct, countRows,
        Act.isWrite, htr, List.filter_append]
    · by_cases hqi : c.hasQuoteIdent = true
      · simp [ext_delete, ext_exists_falsy c ext none rfl, hcnt, prepare_ext_query, hqi,
          execute_of_adapt_ok _ _ _ _ firstAdaptError_nil, applyAct, countRows,
          Act.isWrite, htr, List.filter_append]
      · have hqi' : c.hasQuoteIdent = false := Bool.eq_false_iff.mpr hqi
        simp [ext_delete, ext_exists_falsy c ext none rfl, hcnt, prepare_ext_query, hqi',
          execute_of_adapt_ok _ _ _ _ (firstAdaptError_ext_ok ext hpm), applyAct, countRows,
          Act.isWrite, htr, List.filter_append]
  · have hcnt' : (countByName c.db ext == 1) = false := Bool.eq_false_iff.mpr hcnt
    simp [ext_delete, ext_exists_falsy c ext none rfl, hcnt', htr, Act.isWrite]

/-- `ext_delete` on the compatibility-shim path with an identifier the
pattern rejects: no DDL executes, the catalog is untouched, and the run
fails with the invalid-identifier error exactly when a DROP was due. -/
theorem ext_delete_shim_invalid (c : Cursor) (ext : String)
    (hqi : c.hasQuoteIdent = false) (hp : pymatch ext = false) (htr : c.trace = []) :
    (ext_delete c ext).1 =
      (if countByName c.db ext == 1 then Except.error (errMsg ext)
       else Except.ok false) ∧
    (ext_delete c ext).2.db = c.db ∧
    (ext_delete c ext).2.trace.filter (fun s => s.act.isWrite) = [] ∧
    ((ext_delete c ext).2.trace.filter (fun s => !s.act.isWrite)).length = 1 := by
  by_cases hcnt : (countByName c.db ext == 1) = true
  · simp [ext_delete, ext_exists_falsy c ext none rfl, hcnt, prepare_ext_query, hqi,
      execute_of_adapt_err _ _ _ _ _ (firstAdaptError_ext_err ext hp),
      htr, Act.isWrite]
  · have hcnt' : (countByName c.db ext == 1) = false := Bool.eq_false_iff.mpr hcnt
    simp [ext_delete, ext_exists_falsy c ext none rfl, hcnt', htr, Act.isWrite]

theorem firstAdaptError_pstr (k v : String) :
    firstAdaptError [(k, Param.pstr v)] = none := rfl

theorem firstAdaptError_pstr_ext_ok (k v n : String) (h : pymatch n = true) :
    firstAdaptError [(k, Param.pstr v), ("ext", Param.pquoted n)] = none := by
  simp [firstAdaptError, adaptParam, QuotedIdentifier.getquoted, h]

theorem firstAdaptError_pstr_ext_err (k v n : String) (h : pymatch n = false) :
    firstAdaptError [(k, Param.pstr v), ("ext", Param.pquoted n)] =
      some (errMsg n) := by
  simp [firstAdaptError, adaptParam, QuotedIdentifier.getquoted, h]

/-- Full characterization of a successful `ext_create` run with a falsy
version (`None` or `""`) from a fresh cursor. -/
theorem ext_create_falsy_run (c : Cursor) (ext : String) (ver : Option String)
    (hv : pyTruthy ver = false) (htr : c.trace = [])
    (hok : c.hasQuoteIdent = true ∨ pymatch ext = true) :
    (ext_create c ext ver).1 = Except.ok (!(countByName c.db ext == 1)) ∧
    (ext_create c ext ver).2.db =
      (if countByName c.db ext == 1 then c.db
       else c.db ++ [⟨ext, c.defaultVersion ext⟩]) ∧
    ((ext_create c ext ver).2.trace.filter (fun s => s.act.isWrite)).map Stmt.act =
      (if countByName c.db ext == 1 then [] else [Act.createExt ext]) ∧
    ((ext_create c ext ver).2.trace.filter (fun s => !s.act.isWrite)).length = 1 ∧
    (ext_create c ext ver).2.hasQuoteIdent = c.hasQuoteIdent := by
  by_cases hcnt : (countByName c.db ext == 1) = true
  · simp [ext_create, ext_exists_falsy c ext none rfl, hcnt, hv, htr, Act.isWrite]
  · have hcnt' : (countByName c.db ext == 1) = false := Bool.eq_false_iff.mpr hcnt
    rcases hok with hqi | hpm
    · simp [ext_create, ext_exists_falsy c ext none rfl, hcnt', hv, htr, Act.isWrite,
        prepare_ext_query, hqi,
        execute_of_adapt_ok _ _ _ _ (firstAdaptError_ver ver), applyAct, countRows,
        List.filter_append]
    · by_cases hqi : c.hasQuoteIdent = true
      · simp [ext_create, ext_exists_falsy c ext none rfl, hcnt', hv, htr, Act.isWrite,
          prepare_ext_query, hqi,
          execute_of_adapt_ok _ _ _ _ (firstAdaptError_ver ver), applyAct, countRows,
          List.filter_append]
      · have hqi' : c.hasQuoteIdent = false := Bool.eq_false_iff.mpr hqi
        simp [ext_create, ext_exists_falsy c ext none rfl, hcnt', hv, htr, Act.isWrite,
          prepare_ext_query, hqi',
          execute_of_adapt_ok _ _ _ _ (firstAdaptError_ver_ext_ok ver ext hpm),
          applyAct, countRows, List.filter_append]

/-- Full characterization of a successful `ext_create` run with a truthy
version from a fresh cursor: create when missing, upgrade when at another
version, no-op when already at the requested version; one read when the
extension is missing, two otherwise. -/
theorem ext_create_truthy_run (c : Cursor) (ext v : String)
    (hv : (v == "") = false) (htr : c.trace = [])
    (hok : c.hasQuoteIdent = true ∨ pymatch ext = true) :
    (ext_create c ext (some v)).1 =
      Except.ok
        (if countByName c.db ext == 1 then !(countByNameVer c.db ext v == 1)
         else true) ∧
    (ext_create c ext (some v)).2.db =
      (if countByName c.db ext == 1 then
        (if countByNameVer c.db ext v == 1 then c.db
         else c.db.map (fun r =>
           if r.extname == ext then { r with extversion := v } else r))
       else c.db ++ [⟨ext, v⟩]) ∧
    ((ext_create c ext (some v)).2.trace.filter (fun s => s.act.isWrite)).map Stmt.act =
      (if countByName c.db ext == 1 then
        (if countByNameVer c.db ext v == 1 then [] else [Act.alterExtVer ext v])
       else [Act.createExtVer ext v]) ∧
    ((ext_create c ext (some v)).2.trace.filter (fun s => !s.act.isWrite)).length =
      (if countByName c.db ext == 1 then 2 else 1) ∧
    (ext_create c ext (some v)).2.hasQuoteIdent = c.hasQuoteIdent := by
  have hvv : pyTruthy (some v) = true := by simp [pyTruthy, hv]
  by_cases hcnt : (countByName c.db ext == 1) = true
  · by_cases hcv : (countByNameVer c.db ext v == 1) = true
    · simp [ext_create, ext_exists_falsy c ext none rfl, hcnt, hvv, htr, Act.isWrite,
        ext_exists_truthy _ ext v hv, hcv, List.filter_append]
    · have hcv' : (countByNameVer c.db ext v == 1) = false := Bool.eq_false_iff.mpr hcv
      rcases hok with hqi | hpm
      · simp [ext_create, ext_exists_falsy c ext none rfl, hcnt, hvv, htr, Act.isWrite,
          ext_exists_truthy _ ext v hv, hcv', prepare_ext_query, hqi,
          execute_of_adapt_ok _ _ _ _ (firstAdaptError_pstr "ver" v), applyAct,
          countRows, List.filter_append, Param.ofOpt]
      · by_cases hqi : c.hasQuoteIdent = true
        · simp [ext_create, ext_exists_falsy c ext none rfl, hcnt, hvv, htr, Act.isWrite,
            ext_exists_truthy _ ext v hv, hcv', prepare_ext_query, hqi,
            execute_of_adapt_ok _ _ _ _ (firstAdaptError_pstr "ver" v), applyAct,
            countRows, List.filter_append, Param.ofOpt]
        · have hqi' : c.hasQuoteIdent = false := Bool.eq_false_iff.mpr hqi
          simp [ext_create, ext_exists_falsy c ext none rfl, hcnt, hvv, htr, Act.isWrite,
            ext_exists_truthy _ ext v hv, hcv', prepare_ext_query, hqi',
            execute_of_adapt_ok _ _ _ _ (firstAdaptError_pstr_ext_ok "ver" v ext hpm),
            applyAct, countRows, List.filter_append, Param.ofOpt]
  · have hcnt' : (countByName c.db ext == 1) = false := Bool.eq_false_iff.mpr hcnt
    rcases hok with hqi | hpm
    · simp [ext_create, ext_exists_falsy c ext none rfl, hcnt', hvv, htr, Act.isWrite,
        prepare_ext_query, hqi,
        execute_of_adapt_ok _ _ _ _ (firstAdaptError_pstr "ver" v), applyAct,
        countRows, List.filter_append, Param.ofOpt]
    · by_cases hqi : c.hasQuoteIdent = true
      · simp [ext_create, ext_exists_falsy c ext none rfl, hcnt', hvv, htr, Act.isWrite,
          prepare_ext_query, hqi,
          execute_of_adapt_ok _ _ _ _ (firstAdaptError_pstr "ver" v), applyAct,
          countRows, List.filter_append, Param.ofOpt]
      · have hqi' : c.hasQuoteIdent = false := Bool.eq_false_iff.mpr hqi
        simp [ext_create, ext_exists_falsy c ext none rfl, hcnt', hvv, htr, Act.isWrite,
          prepare_ext_query, hqi',
          execute_of_adapt_ok _ _ _ _ (firstAdaptError_pstr_ext_ok "ver" v ext hpm),
          applyAct, countRows, List.filter_append, Param.ofOpt]

/-- `ext_create` on the compatibility-shim path with an identifier the
pattern rejects: no DDL executes, the catalog is untouched, and the run
fails with the invalid-identifier error exactly when a DDL was due. -/
theorem ext_create_shim_invalid (c : Cursor) (ext : String) (ver : Option String)
    (hqi : c.hasQuoteIdent = false) (hp : pymatch ext = false) (htr : c.trace = []) :
    (ext_create c ext ver).1 =
      (if countByName c.db ext == 1 then
        (if pyTruthy ver && !(countByNameVer c.db ext (ver.getD "") == 1) then
          Except.error (errMsg ext)
         else Except.ok false)
       else Except.error (errMsg ext)) ∧
    (ext_create c ext ver).2.db = c.db ∧
    (ext_create c ext ver).2.trace.filter (fun s => s.act.isWrite) = [] ∧
    ((ext_create c ext ver).2.trace.filter (fun s => !s.act.isWrite)).length =
      (if (countByName c.db ext == 1) && pyTruthy ver then 2 else 1) := by
  by_cases hcnt : (countByName c.db ext == 1) = true
  · by_cases hvt : pyTruthy ver = true
    · obtain ⟨v, rfl⟩ : ∃ v, ver = some v := by
        cases ver with
        | none => simp [pyTruthy] at hvt
        | some s => exact ⟨s, rfl⟩
      have hv : (v == "") = false := by
        simpa [pyTruthy] using hvt
      by_cases hcv : (countByNameVer c.db ext v == 1) = true
      · simp [ext_create, ext_exists_falsy c ext none rfl, hcnt, hvt, htr, Act.isWrite,
          ext_exists_truthy _ ext v hv, hcv, List.filter_append]
      · have hcv' : (countByNameVer c.db ext v == 1) = false := Bool.eq_false_iff.mpr hcv
        simp [ext_create, ext_exists_falsy c ext none rfl, hcnt, hvt, htr, Act.isWrite,
          ext_exists_truthy _ ext v hv, hcv', prepare_ext_query, hqi,
          execute_of_adapt_err _ _ _ _ _ (firstAdaptError_pstr_ext_err "ver" v ext hp),
          List.filter_append, Param.ofOpt]
    · have hvf : pyTruthy ver = false := Bool.eq_false_iff.mpr hvt
      simp [ext_create, ext_exists_falsy c ext none rfl, hcnt, hvf, htr, Act.isWrite]
  · have hcnt' : (countByName c.db ext == 1) = false := Bool.eq_false_iff.mpr hcnt
    simp [ext_create, ext_exists_falsy c ext none rfl, hcnt', htr, Act.isWrite,
      prepare_ext_query, hqi,
      execute_of_adapt_err _ _ _ _ _ (firstAdaptError_ver_ext_err ver ext hp)]

theorem countByName_snoc_self (db : List Row) (e w : String) :
    countByName (db ++ [⟨e, w⟩]) e = countByName db e + 1 := by
  simp [countByName, List.filter_append]

theorem countByNameVer_snoc_self (db : List Row) (e v : String) :
    countByNameVer (db ++ [⟨e, v⟩]) e v = countByNameVer db e v + 1 := by
  simp [countByNameVer, List.filter_append]

theorem countByName_dropExt (db : List Row) (e : String) :
    countByName (db.filter (fun r => !(r.extname == e))) e = 0 := by
  induction db with
  | nil => rfl
  | cons r t ih =>
    by_cases h : (r.extname == e) = true
    · simpa [List.filter_cons, h] using ih
    · have h' : (r.extname == e) = false := Bool.eq_false_iff.mpr h
      rw [List.filter_cons]
      simp only [h', Bool.not_false, if_true]
      rw [countByName_cons_neg h']
      exact ih

theorem countByName_alter (db : List Row) (e v : String) :
    countByName
      (db.map (fun r => if r.extname == e then { r with extversion := v } else r)) e
      = countByName db e := by
  induction db with
  | nil => rfl
  | cons r t ih =>
    rw [List.map_cons]
    by_cases h : (r.extname == e) = true
    · rw [if_pos h,
        countByName_cons_pos (show (({ r with extversion := v } : Row).extname == e) = true from h),
        countByName_cons_pos h, ih]
    · have h' : (r.extname == e) = false := Bool.eq_false_iff.mpr h
      rw [if_neg h, countByName_cons_neg h', countByName_cons_neg h', ih]

theorem countByNameVer_alter (db : List Row) (e v : String) :
    countByNameVer
      (db.map (fun r => if r.extname == e then { r with extversion := v } else r)) e v
      = countByName db e := by
  induction db with
  | nil => rfl
  | cons r t ih =>
    rw [List.map_cons]
    by_cases h : (r.extname == e) = true
    · rw [if_pos h, countByNameVer_cons_pos (by simp [h]), countByName_cons_pos h, ih]
    · have h' : (r.extname == e) = false := Bool.eq_false_iff.mpr h
      rw [if_neg h, countByNameVer_cons_neg (by simp [h']), countByName_cons_neg h', ih]

theorem main_unfold_absent (c : Cursor) (ext version : String) :
    main c false "absent" ext version = ext_delete c ext := by
  simp [main]

theorem main_unfold_present (c : Cursor) (ext version : String) :
    main c false "present" ext version = ext_create c ext (some version) := by
  simp [main]

theorem beq_single_newline (d : Char) : (([d] : List Char) == ['\n']) = (d == '\n') := by
  cases h : (d == '\n') <;> simp_all [List.cons_beq_cons]

theorem beq_cons_cons_newline (d x : Char) (xs : List Char) :
    ((d :: x :: xs : List Char) == ['\n']) = false := by
  cases h : (d == '\n') <;> simp [List.cons_beq_cons, h]

/-- The compiled behaviour of `[\w_\$]+$` on the remainder of the name: it
accepts when all remaining characters (at least one) are word-or-dollar, or
when all but a single final newline are. -/
theorem tailMatch_eq (l : List Char) :
    tailMatch l =
      ((!l.isEmpty && l.all pyIsWordDollar) ||
       (l.getLast? == some '\n' &&
        (!l.dropLast.isEmpty && l.dropLast.all pyIsWordDollar))) := by
  induction l with
  | nil => rfl
  | cons c rest ih =>
    cases rest with
    | nil =>
      simp [tailMatch]
    | cons d t =>
      cases t with
      | nil =>
        rw [tailMatch]
        rw [ih]
        cases hc : pyIsWordDollar c <;> cases hd : pyIsWordDollar d <;>
          cases hn : (d == '\n') <;>
            simp [beq_single_newline, hc, hd, hn, List.getLast?_cons_cons,
              List.dropLast_cons₂]
      | cons x xs =>
        rw [tailMatch]
        rw [ih]
        cases hc : pyIsWordDollar c <;>
          simp [beq_cons_cons_newline, hc, List.getLast?_cons_cons,
            List.dropLast_cons₂, Bool.and_or_distrib_left, Bool.and_left_comm]

/-- `re.match` of the source pattern agrees with the amended specification
pattern on every name. -/
theorem pymatch_eq_amendedPattern (s : String) :
    pymatch s = amendedPattern s := by
  show pymatch s = amendedPatternL s.data
  rw [pymatch]
  cases hd : s.data with

  | nil => rfl
  | cons c rest =>
    cases rest with
    | nil =>
      simp [amendedPatternL, specPatternL, tailMatch]
    | cons d t =>
      rw [show (match c :: d :: t with
            | [] => false
            | c :: rest => pyIsIdentFirst c && tailMatch rest)
          = (pyIsIdentFirst c && tailMatch (d :: t)) from rfl]
      rw [amendedPatternL, tailMatch_eq]
      simp [specPatternL, List.getLast?_cons_cons, List.dropLast_cons₂,
        Bool.and_or_distrib_left, Bool.and_assoc, Bool.and_left_comm]

/-! ### Claim theorems -/

/-- C6 counterexample: the name `"ab\n"` does not match the claimed pattern
(letter or underscore followed by word characters, underscore, or dollar
sign — a newline is none of these), yet `getquoted` accepts it instead of
raising: Python's `$` also matches just before a trailing newline. -/
theorem getquoted_pattern_counterexample :
    QuotedIdentifier.getquoted "ab\n" = Except.ok "ab\n" ∧
    specPattern "ab\n" = false :=
  ⟨rfl, rfl⟩

/-- C6 (amended): on the compatibility-shim path `getquoted` accepts exactly
the names consisting of a letter or underscore followed by one or more word
characters, underscores, or dollar signs, optionally ending in one extra
trailing newline; it returns such names verbatim (no truncation or
escaping) and raises the invalid-identifier exception for every other name,
including any containing semicolons, quotes, or other SQL metacharacters. -/
theorem getquoted_amended (s : String) :
    QuotedIdentifier.getquoted s =
      (if amendedPattern s then Except.ok s else Except.error (errMsg s)) := by
  rw [QuotedIdentifier.getquoted, pymatch_eq_amendedPattern]

/-- C9: `ext_exists` returns exactly-one-row of the catalog matching — by
name alone when no version is given (`None` or, as everywhere in the module,
the empty string), by name and version otherwise; it executes the single
constant-text SELECT (the same text for every name and version, so nothing
is interpolated) passing both name and version as bind parameters, and
leaves the catalog untouched. -/
theorem ext_exists_contract (c : Cursor) (ext : String) (ver : Option String) :
    ext_exists c ext ver =
      (Except.ok
        ((if pyTruthy ver then countByNameVer c.db ext (ver.getD "")
          else countByName c.db ext) == 1),
       { c with
          rowcount :=
            (if pyTruthy ver then countByNameVer c.db ext (ver.getD "")
             else countByName c.db ext),
          trace := c.trace ++
            [⟨(if pyTruthy ver then
                "SELECT * FROM pg_extension WHERE extname=%(ext)s and extversion=%(ver)s"
               else "SELECT * FROM pg_extension WHERE extname=%(ext)s"),
              [("ext", Param.pstr ext), ("ver", Param.ofOpt ver)],
              (if pyTruthy ver then Act.selectByNameVer ext (ver.getD "")
               else Act.selectByName ext)⟩] }) := by
  by_cases hvt : pyTruthy ver = true
  · obtain ⟨v, rfl⟩ : ∃ v, ver = some v := by
      cases ver with
      | none => simp [pyTruthy] at hvt
      | some s => exact ⟨s, rfl⟩
    have hv : (v == "") = false := by simpa [pyTruthy] using hvt
    rw [ext_exists_truthy c ext v hv]
    simp [hvt, Param.ofOpt]
  · have hvf : pyTruthy ver = false := Bool.eq_false_iff.mpr hvt
    rw [ext_exists_falsy c ext ver hvf]
    simp [hvf]

/-- C10: with desired state absent the whole reconciliation outcome is
independent of the `version` parameter — `ext_delete` never receives it, in
check mode the absent branch reads by name only — so any two version values
produce identical results (changed flag, raised error, catalog, trace). -/
theorem absent_ignores_version (c : Cursor) (cm : Bool) (ext v1 v2 : String) :
    main c cm "absent" ext v1 = main c cm "absent" ext v2 := by
  cases cm <;> rfl

/-- C5 counterexample: with `postgis` installed at `1.0` and a run desiring
`present` at version `2.0`, `ext_create` executes two read queries (the
name-only existence check and then the name-and-version check), refuting
"exactly one read query". -/
theorem single_read_counterexample :
    ((ext_create cursorNative "postgis" (some "2.0")).2.trace.filter
      (fun s => !s.act.isWrite)).length = 2 := rfl

/-- C5 (amended): every reconciliation branch performs at most two reads and
at most one write: `ext_delete` always reads exactly once; `ext_create`
reads exactly once unless a version is requested and the extension's row is
present (name-count one), in which case it reads exactly twice; no branch
ever writes more than once. -/
theorem read_write_bounds (c : Cursor) (ext : String) (ver : Option String)
    (htr : c.trace = []) :
    ((ext_delete c ext).2.trace.filter (fun s => !s.act.isWrite)).length = 1 ∧
    ((ext_delete c ext).2.trace.filter (fun s => s.act.isWrite)).length ≤ 1 ∧
    ((ext_create c ext ver).2.trace.filter (fun s => !s.act.isWrite)).length =
      (if (countByName c.db ext == 1) && pyTruthy ver then 2 else 1) ∧
    ((ext_create c ext ver).2.trace.filter (fun s => s.act.isWrite)).length ≤ 1 := by
  by_cases hok : c.hasQuoteIdent = true ∨ pymatch ext = true
  · obtain ⟨_, _, hdW, hdR, _⟩ := ext_delete_run c ext htr hok
    have hdle : ((ext_delete c ext).2.trace.filter
        (fun s => s.act.isWrite)).length ≤ 1 := by
      have hlen := congrArg List.length hdW
      rw [List.length_map] at hlen
      rw [hlen]
      split <;> simp
    by_cases hvt : pyTruthy ver = true
    · obtain ⟨v, rfl⟩ : ∃ v, ver = some v := by
        cases ver with
        | none => simp [pyTruthy] at hvt
        | some s => exact ⟨s, rfl⟩
      have hv : (v == "") = false := by simpa [pyTruthy] using hvt
      obtain ⟨_, _, hcW, hcR, _⟩ := ext_create_truthy_run c ext v hv htr hok
      have hcle : ((ext_create c ext (some v)).2.trace.filter
          (fun s => s.act.isWrite)).length ≤ 1 := by
        have hlen := congrArg List.length hcW
        rw [List.length_map] at hlen
        rw [hlen]
        split
        · split <;> simp
        · simp
      refine ⟨hdR, hdle, ?_, hcle⟩
      rw [hcR]
      simp [hvt]
    · have hvf : pyTruthy ver = false := Bool.eq_false_iff.mpr hvt
      obtain ⟨_, _, hcW, hcR, _⟩ := ext_create_falsy_run c ext ver hvf htr hok
      have hcle : ((ext_create c ext ver).2.trace.filter
          (fun s => s.act.isWrite)).length ≤ 1 := by
        have hlen := congrArg List.length hcW
        rw [List.length_map] at hlen
        rw [hlen]
        split <;> simp
      refine ⟨hdR, hdle, ?_, hcle⟩
      rw [hcR]
      simp [hvf]
  · push_neg at hok
    have hqi : c.hasQuoteIdent = false :=
      Bool.eq_false_iff.mpr (fun h => by simp [h] at hok)
    have hp : pymatch ext = false :=
      Bool.eq_false_iff.mpr (fun h => by simp [h] at hok)
    obtain ⟨_, _, hdW, hdR⟩ := ext_delete_shim_invalid c ext hqi hp htr
    obtain ⟨_, _, hcW, hcR⟩ := ext_create_shim_invalid c ext ver hqi hp htr
    exact ⟨hdR, by simp [hdW], hcR, by simp [hcW]⟩

/-- C7: on the compatibility-shim path, for every extension name the pattern
rejects, the invalid-identifier error is raised during parameter adaptation
— before the final DDL text exists — so no DDL statement is ever executed
with that name (the trace holds only the reads), the catalog is untouched,
and the run fails with exactly that error whenever a DDL was due. -/
theorem shim_invalid_aborts (c : Cursor) (ext : String) (ver : Option String)
    (hqi : c.hasQuoteIdent = false) (hp : pymatch ext = false)
    (htr : c.trace = []) :
    (ext_delete c ext).2.trace.filter (fun s => s.act.isWrite) = [] ∧
    (ext_create c ext ver).2.trace.filter (fun s => s.act.isWrite) = [] ∧
    (ext_delete c ext).1 =
      (if countByName c.db ext == 1 then Except.error (errMsg ext)
       else Except.ok false) ∧
    (ext_create c ext ver).1 =
      (if countByName c.db ext == 1 then
        (if pyTruthy ver && !(countByNameVer c.db ext (ver.getD "") == 1) then
          Except.error (errMsg ext)
         else Except.ok false)
       else Except.error (errMsg ext)) ∧
    (ext_delete c ext).2.db = c.db ∧
    (ext_create c ext ver).2.db = c.db := by
  obtain ⟨hd1, hd2, hd3, _⟩ := ext_delete_shim_invalid c ext hqi hp htr
  obtain ⟨hc1, hc2, hc3, _⟩ := ext_create_shim_invalid c ext ver hqi hp htr
  exact ⟨hd3, hc3, hd1, hc1, hd2, hc2⟩

theorem some_beq_some (w V : String) :
    ((some w : Option String) == some V) = (w == V) := rfl

theorem none_beq_some (V : String) :
    ((none : Option String) == some V) = false := rfl

/-- C3: with desired state absent, `ext_delete` issues `DROP EXTENSION` and
reports changed exactly when an installation (at any version) exists, and
issues no DDL otherwise. -/
theorem delete_reconcile (c : Cursor) (ext : String)
    (hwf : wfDb c.db = true) (htr : c.trace = [])
    (hok : c.hasQuoteIdent = true ∨ pymatch ext = true) :
    (ext_delete c ext).1 = Except.ok (installedVersion c.db ext).isSome ∧
    ((ext_delete c ext).2.trace.filter (fun s => s.act.isWrite)).map Stmt.act =
      (if (installedVersion c.db ext).isSome then [Act.dropExt ext] else []) := by
  obtain ⟨h1, _, h3, _, _⟩ := ext_delete_run c ext htr hok
  have hcn := countByName_wf c.db ext hwf
  rcases hiv : installedVersion c.db ext with _ | w <;>
    rw [hiv] at hcn <;> simp at hcn <;> simp [h1, h3, hcn, hiv]

/-- C2: with desired state present and a requested version `V`: when no
installation exists `ext_create` issues `CREATE EXTENSION ... VERSION V` and
reports changed; when one exists at `w ≠ V` it issues
`ALTER EXTENSION ... UPDATE TO V` and reports changed; when one exists at
exactly `V` it issues no DDL and reports unchanged. -/
theorem create_with_version (c : Cursor) (ext V : String)
    (hV : (V == "") = false) (hwf : wfDb c.db = true) (htr : c.trace = [])
    (hok : c.hasQuoteIdent = true ∨ pymatch ext = true) :
    (ext_create c ext (some V)).1 =
      Except.ok (!(installedVersion c.db ext == some V)) ∧
    ((ext_create c ext (some V)).2.trace.filter
        (fun s => s.act.isWrite)).map Stmt.act =
      (match installedVersion c.db ext with
       | none => [Act.createExtVer ext V]
       | some w => if w == V then [] else [Act.alterExtVer ext V]) := by
  obtain ⟨h1, _, h3, _, _⟩ := ext_create_truthy_run c ext V hV htr hok
  have hcn := countByName_wf c.db ext hwf
  have hcnv := countByNameVer_wf c.db ext V hwf
  rcases hiv : installedVersion c.db ext with _ | w
  · rw [hiv] at hcn hcnv
    simp at hcn hcnv
    simp [h1, h3, hcn, hcnv, hiv, none_beq_some]
  · rw [hiv] at hcn hcnv
    simp at hcn
    by_cases hw : (w == V) = true
    · have hwE : w = V := by simpa using hw
      rw [hwE] at hcnv
      simp at hcnv
      simp [h1, h3, hcn, hcnv, hiv, some_beq_some, hw]
    · have hwE : ¬(w = V) := by simpa using hw
      rw [if_neg (by simpa using hwE)] at hcnv
      simp [h1, h3, hcn, hcnv, hiv, some_beq_some, hw]

/-- C4: with desired state present and the version omitted or empty: when no
installation exists `ext_create` issues `CREATE EXTENSION` without a VERSION
clause and reports changed; when one exists at any version it issues no DDL
at all (no CREATE and no ALTER) and reports unchanged. -/
theorem create_without_version (c : Cursor) (ext : String) (ver : Option String)
    (hv : pyTruthy ver = false) (hwf : wfDb c.db = true) (htr : c.trace = [])
    (hok : c.hasQuoteIdent = true ∨ pymatch ext = true) :
    (ext_create c ext ver).1 =
      Except.ok (!(installedVersion c.db ext).isSome) ∧
    ((ext_create c ext ver).2.trace.filter
        (fun s => s.act.isWrite)).map Stmt.act =
      (if (installedVersion c.db ext).isSome then [] else [Act.createExt ext]) := by
  obtain ⟨h1, _, h3, _, _⟩ := ext_create_falsy_run c ext ver hv htr hok
  have hcn := countByName_wf c.db ext hwf
  rcases hiv : installedVersion c.db ext with _ | w <;>
    rw [hiv] at hcn <;> simp at hcn <;> simp [h1, h3, hcn, hiv]

/-- C1: for every desired state, version and current catalog, the `changed`
value computed by the check-mode branch of `main` equals the `changed` value
the non-check run (`ext_create` / `ext_delete`) returns, and the check-mode
branch executes no DDL — its trace holds only SELECT reads and the catalog
is untouched.  Stated where the active quoting path accepts the identifier;
with a rejected identifier the real run raises instead of reporting a
`changed` value, so there is nothing to compare. -/
theorem checkmode_fidelity (c : Cursor) (st ext version : String)
    (hst : st = "present" ∨ st = "absent")
    (hwf : wfDb c.db = true) (htr : c.trace = [])
    (hok : c.hasQuoteIdent = true ∨ pymatch ext = true) :
    (main c true st ext version).1 = (main c false st ext version).1 ∧
    (main c true st ext version).2.trace.filter (fun s => s.act.isWrite) = [] ∧
    (main c true st ext version).2.db = c.db := by
  rcases hst with rfl | rfl
  · rw [main_unfold_present]
    by_cases hve : (version == "") = true
    · have hvf : pyTruthy (some version) = false := by simp [pyTruthy, hve]
      obtain ⟨h1, _, _, _, _⟩ := ext_create_falsy_run c ext (some version) hvf htr hok
      simp [main, ext_exists_falsy c ext (some version) hvf, h1, htr, Act.isWrite]
    · have hv : (version == "") = false := Bool.eq_false_iff.mpr hve
      have hvt : pyTruthy (some version) = true := by simp [pyTruthy, hv]
      obtain ⟨h1, _, _, _, _⟩ := ext_create_truthy_run c ext version hv htr hok
      have hcn := countByName_wf c.db ext hwf
      have hcnv := countByNameVer_wf c.db ext version hwf
      rcases hiv : installedVersion c.db ext with _ | w
      · rw [hiv] at hcn hcnv
        simp at hcn hcnv
        simp [main, ext_exists_truthy c ext version hv, h1, hcn, hcnv, htr,
          Act.isWrite]
      · rw [hiv] at hcn
        simp at hcn
        simp [main, ext_exists_truthy c ext version hv, h1, hcn, htr, Act.isWrite]
  · rw [main_unfold_absent]
    obtain ⟨h1, _, _, _, _⟩ := ext_delete_run c ext htr hok
    simp [main, ext_exists_falsy c ext none rfl, h1, htr, Act.isWrite]

/-- C8: running the (non-check) reconciliation twice in sequence with
identical desired state, version and connection against the catalog the
first run left behind yields changed `false` on the second run, and the
second run issues no DDL.  The second invocation starts with a fresh trace,
as every module invocation is a fresh process. -/
theorem idempotent_second_run (c : Cursor) (st ext version : String)
    (hst : st = "present" ∨ st = "absent") (hwf : wfDb c.db = true)
    (htr : c.trace = [])
    (hok : c.hasQuoteIdent = true ∨ pymatch ext = true) :
    (main { (main c false st ext version).2 with trace := [] }
        false st ext version).1 = Except.ok false ∧
    (main { (main c false st ext version).2 with trace := [] }
        false st ext version).2.trace.filter (fun s => s.act.isWrite) = [] := by
  rcases hst with rfl | rfl
  · rw [main_unfold_present, main_unfold_present]
    by_cases hve : (version == "") = true
    · have hvf : pyTruthy (some version) = false := by simp [pyTruthy, hve]
      obtain ⟨_, hdb1, _, _, hqi1⟩ := ext_create_falsy_run c ext (some version) hvf htr hok
      have hok2 : ({ (ext_create c ext (some version)).2 with trace := [] } : Cursor).hasQuoteIdent = true
          ∨ pymatch ext = true := by
        rcases hok with h | h
        · exact Or.inl (by simp only [hqi1, h])
        · exact Or.inr h
      obtain ⟨h1', _, h3', _, _⟩ :=
        ext_create_falsy_run { (ext_create c ext (some version)).2 with trace := [] }
          ext (some version) hvf rfl hok2
      have hcnt2 : (countByName
          ({ (ext_create c ext (some version)).2 with trace := [] } : Cursor).db ext == 1) = true := by
        have hpr : ({ (ext_create c ext (some version)).2 with trace := [] } : Cursor).db
            = (ext_create c ext (some version)).2.db := rfl
        rw [hpr, hdb1]
        by_cases hcnt : (countByName c.db ext == 1) = true
        · rw [if_pos hcnt]
          exact hcnt
        · rw [if_neg hcnt]
          have hcn0 : countByName c.db ext = 0 := by
            rcases hiv : installedVersion c.db ext with _ | w
            · have := countByName_wf c.db ext hwf
              rw [hiv] at this
              simpa using this
            · exfalso
              have := countByName_wf c.db ext hwf
              rw [hiv] at this
              simp at this
              exact hcnt (by simp [this])
          rw [countByName_snoc_self, hcn0]
          decide
      rw [hcnt2] at h1' h3'
      simp only [Bool.not_true, if_true] at h1' h3'
      refine ⟨h1', ?_⟩
      simpa using h3'
    · have hv : (version == "") = false := Bool.eq_false_iff.mpr hve
      obtain ⟨_, hdb1, _, _, hqi1⟩ := ext_create_truthy_run c ext version hv htr hok
      have hok2 : ({ (ext_create c ext (some version)).2 with trace := [] } : Cursor).hasQuoteIdent = true
          ∨ pymatch ext = true := by
        rcases hok with h | h
        · exact Or.inl (by simp only [hqi1, h])
        · exact Or.inr h
      obtain ⟨h1', _, h3', _, _⟩ :=
        ext_create_truthy_run { (ext_create c ext (some version)).2 with trace := [] }
          ext version hv rfl hok2
      have hpr : ({ (ext_create c ext (some version)).2 with trace := [] } : Cursor).db
          = (ext_create c ext (some version)).2.db := rfl
      have hcnt2 : (countByName
          ({ (ext_create c ext (some version)).2 with trace := [] } : Cursor).db ext == 1) = true ∧
          (countByNameVer
          ({ (ext_create c ext (some version)).2 with trace := [] } : Cursor).db ext version == 1) = true := by
        rw [hpr, hdb1]
        by_cases hcnt : (countByName c.db ext == 1) = true
        · rw [if_pos hcnt]
          by_cases hcv : (countByNameVer c.db ext version == 1) = true
          · rw [if_pos hcv]
            exact ⟨hcnt, hcv⟩
          · rw [if_neg hcv]
            constructor
            · rw [countByName_alter]
              exact hcnt
            · rw [countByNameVer_alter]
              exact hcnt
        · rw [if_neg hcnt]
          have hcn0 : countByName c.db ext = 0 := by
            rcases hiv : installedVersion c.db ext with _ | w
            · have := countByName_wf c.db ext hwf
              rw [hiv] at this
              simpa using this
            · exfalso
              have := countByName_wf c.db ext hwf
              rw [hiv] at this
              simp at this
              exact hcnt (by simp [this])
          have hcv0 : countByNameVer c.db ext version = 0 := by
            have := countByNameVer_le c.db ext version
            omega
          constructor
          · rw [countByName_snoc_self, hcn0]
            decide
          · rw [countByNameVer_snoc_self, hcv0]
            decide
      rw [hcnt2.1, hcnt2.2] at h1' h3'
      simp only [Bool.not_true, if_true] at h1' h3'
      refine ⟨h1', ?_⟩
      simpa using h3'
  · rw [main_unfold_absent, main_unfold_absent]
    obtain ⟨_, hdb1, _, _, hqi1⟩ := ext_delete_run c ext htr hok
    have hok2 : ({ (ext_delete c ext).2 with trace := [] } : Cursor).hasQuoteIdent = true
        ∨ pymatch ext = true := by
      rcases hok with h | h
      · exact Or.inl (by simp only [hqi1, h])
      · exact Or.inr h
    obtain ⟨h1', _, h3', _, _⟩ :=
      ext_delete_run { (ext_delete c ext).2 with trace := [] } ext rfl hok2
    have hcnt2 : (countByName
        ({ (ext_delete c ext).2 with trace := [] } : Cursor).db ext == 1) = false := by
      have hpr : ({ (ext_delete c ext).2 with trace := [] } : Cursor).db
          = (ext_delete c ext).2.db := rfl
      rw [hpr, hdb1]
      by_cases hcnt : (countByName c.db ext == 1) = true
      · rw [if_pos hcnt]
        simp [countByName_dropExt]
      · rw [if_neg hcnt]
        exact Bool.eq_false_iff.mpr hcnt
    rw [hcnt2] at h1' h3'
    simp only [Bool.false_eq_true, if_false] at h1' h3'
    refine ⟨h1', ?_⟩
    simpa using h3'

/-! ### Concrete witnesses for the claim theorems with hypotheses -/

/-- C1 witness at a concrete cursor: `postgis` installed at `1.0`, desired
present at `2.0`. -/
theorem checkmode_fidelity_witness :
    ("present" = "present" ∨ "present" = "absent") ∧
    wfDb cursorNative.db = true ∧ cursorNative.trace = [] ∧
    (cursorNative.hasQuoteIdent = true ∨ pymatch "postgis" = true) ∧
    ((main cursorNative true "present" "postgis" "2.0").1 =
      (main cursorNative false "present" "postgis" "2.0").1 ∧
     (main cursorNative true "present" "postgis" "2.0").2.trace.filter
       (fun s => s.act.isWrite) = [] ∧
     (main cursorNative true "present" "postgis" "2.0").2.db = cursorNative.db) :=
  ⟨Or.inl rfl, by decide, rfl, Or.inl rfl,
   checkmode_fidelity cursorNative "present" "postgis" "2.0" (Or.inl rfl)
     (by decide) rfl (Or.inl rfl)⟩

/-- C2 witness: `postgis` installed at `1.0`, requested version `2.0`
(the ALTER case of the statement's case split). -/
theorem create_with_version_witness :
    (("2.0" == "") = false) ∧
    wfDb cursorNative.db = true ∧ cursorNative.trace = [] ∧
    (cursorNative.hasQuoteIdent = true ∨ pymatch "postgis" = true) ∧
    ((ext_create cursorNative "postgis" (some "2.0")).1 =
      Except.ok (!(installedVersion cursorNative.db "postgis" == some "2.0")) ∧
     ((ext_create cursorNative "postgis" (some "2.0")).2.trace.filter
        (fun s => s.act.isWrite)).map Stmt.act =
      (match installedVersion cursorNative.db "postgis" with
       | none => [Act.createExtVer "postgis" "2.0"]
       | some w => if w == "2.0" then [] else [Act.alterExtVer "postgis" "2.0"])) :=
  ⟨rfl, by decide, rfl, Or.inl rfl,
   create_with_version cursorNative "postgis" "2.0" rfl (by decide) rfl (Or.inl rfl)⟩

/-- C3 witness: `postgis` installed at `1.0`, desired absent. -/
theorem delete_reconcile_witness :
    wfDb cursorNative.db = true ∧ cursorNative.trace = [] ∧
    (cursorNative.hasQuoteIdent = true ∨ pymatch "postgis" = true) ∧
    ((ext_delete cursorNative "postgis").1 =
      Except.ok (installedVersion cursorNative.db "postgis").isSome ∧
     ((ext_delete cursorNative "postgis").2.trace.filter
        (fun s => s.act.isWrite)).map Stmt.act =
      (if (installedVersion cursorNative.db "postgis").isSome then
        [Act.dropExt "postgis"] else [])) :=
  ⟨by decide, rfl, Or.inl rfl,
   delete_reconcile cursorNative "postgis" (by decide) rfl (Or.inl rfl)⟩

/-- C4 witness: `postgis` installed at `1.0`, desired present with no
version. -/
theorem create_without_version_witness :
    pyTruthy none = false ∧
    wfDb cursorNative.db = true ∧ cursorNative.trace = [] ∧
    (cursorNative.hasQuoteIdent = true ∨ pymatch "postgis" = true) ∧
    ((ext_create cursorNative "postgis" none).1 =
      Except.ok (!(installedVersion cursorNative.db "postgis").isSome) ∧
     ((ext_create cursorNative "postgis" none).2.trace.filter
        (fun s => s.act.isWrite)).map Stmt.act =
      (if (installedVersion cursorNative.db "postgis").isSome then []
       else [Act.createExt "postgis"])) :=
  ⟨rfl, by decide, rfl, Or.inl rfl,
   create_without_version cursorNative "postgis" none rfl (by decide) rfl
     (Or.inl rfl)⟩

/-- C5 (amended) witness: the two-read case, `postgis` installed and a
version requested. -/
theorem read_write_bounds_witness :
    cursorNative.trace = [] ∧
    (((ext_delete cursorNative "postgis").2.trace.filter
        (fun s => !s.act.isWrite)).length = 1 ∧
     ((ext_delete cursorNative "postgis").2.trace.filter
        (fun s => s.act.isWrite)).length ≤ 1 ∧
     ((ext_create cursorNative "postgis" (some "2.0")).2.trace.filter
        (fun s => !s.act.isWrite)).length =
      (if (countByName cursorNative.db "postgis" == 1) && pyTruthy (some "2.0")
       then 2 else 1) ∧
     ((ext_create cursorNative "postgis" (some "2.0")).2.trace.filter
        (fun s => s.act.isWrite)).length ≤ 1) :=
  ⟨rfl, read_write_bounds cursorNative "postgis" (some "2.0") rfl⟩

/-- C7 witness: shim path, installed extension whose name `bad;name` the
pattern rejects. -/
theorem shim_invalid_aborts_witness :
    cursorShimBad.hasQuoteIdent = false ∧
    pymatch "bad;name" = false ∧ cursorShimBad.trace = [] ∧
    ((ext_delete cursorShimBad "bad;name").2.trace.filter
        (fun s => s.act.isWrite) = [] ∧
     (ext_create cursorShimBad "bad;name" (some "2.0")).2.trace.filter
        (fun s => s.act.isWrite) = [] ∧
     (ext_delete cursorShimBad "bad;name").1 =
      (if countByName cursorShimBad.db "bad;name" == 1 then
        Except.error (errMsg "bad;name") else Except.ok false) ∧
     (ext_create cursorShimBad "bad;name" (some "2.0")).1 =
      (if countByName cursorShimBad.db "bad;name" == 1 then
        (if pyTruthy (some "2.0") &&
            !(countByNameVer cursorShimBad.db "bad;name"
                ((some "2.0").getD "") == 1) then
          Except.error (errMsg "bad;name")
         else Except.ok false)
       else Except.error (errMsg "bad;name")) ∧
     (ext_delete cursorShimBad "bad;name").2.db = cursorShimBad.db ∧
     (ext_create cursorShimBad "bad;name" (some "2.0")).2.db = cursorShimBad.db) :=
  ⟨rfl, by decide, rfl,
   shim_invalid_aborts cursorShimBad "bad;name" (some "2.0") rfl (by decide) rfl⟩

/-- C8 witness: present at version `2.0` twice over the one-row catalog. -/
theorem idempotent_second_run_witness :
    ("present" = "present" ∨ "present" = "absent") ∧
    wfDb cursorNative.db = true ∧ cursorNative.trace = [] ∧
    (cursorNative.hasQuoteIdent = true ∨ pymatch "postgis" = true) ∧
    ((main { (main cursorNative false "present" "postgis" "2.0").2 with trace := [] }
        false "present" "postgis" "2.0").1 = Except.ok false ∧
     (main { (main cursorNative false "present" "postgis" "2.0").2 with trace := [] }
        false "present" "postgis" "2.0").2.trace.filter
        (fun s => s.act.isWrite) = []) :=
  ⟨Or.inl rfl, by decide, rfl, Or.inl rfl,
   idempotent_second_run cursorNative "present" "postgis" "2.0" (Or.inl rfl)
     (by decide) rfl (Or.inl rfl)⟩

end PostgresqlExt
